import Mathlib

/-!
Shallow embedding of the Conversational Response Pipeline of
`src/backend/app/services/gemini_service.py` (class `GeminiService`),
together with theorems settling the frozen claims about it.

Python strings are modelled by `String`, Python lists by `List`, JSON-like
provider payloads by the inductive `PyVal`, and raised exceptions by
`Except`.  The Python substring operator `needle in hay`, `str.lower`,
`str.join` and negative slicing are given explicit executable models below.
-/

/-- Model of Python `needle.startswith` on character lists: `startsWithL n h`
is true when `n` is an initial segment of `h`. -/
def startsWithL : List Char → List Char → Bool
  | [], _ => true
  | _ :: _, [] => false
  | a :: as, b :: bs => (a == b) && startsWithL as bs

/-- Model of the Python substring test `n in h` on character lists: `n` occurs
contiguously inside `h`. -/
def hasSubL (n : List Char) : List Char → Bool
  | [] => n.isEmpty
  | c :: t => startsWithL n (c :: t) || hasSubL n t

/-- Model of Python `needle in hay` on strings. -/
def strContains (hay needle : String) : Bool :=
  hasSubL needle.data hay.data

/-- Model of Python `str.lower` (character-wise ASCII lower-casing). -/
def lowerStr (s : String) : String :=
  String.mk (s.data.map Char.toLower)

/-- Model of Python `sep.join(parts)`. -/
def joinWith (sep : String) : List String → String
  | [] => ""
  | [x] => x
  | x :: y :: rest => x ++ sep ++ joinWith sep (y :: rest)

/-- Model of Python negative slicing `l[-k:]`: the last `k` elements. -/
def takeLast (k : Nat) (l : List α) : List α :=
  l.drop (l.length - k)

/-- JSON-like values returned by `response.json()` in `_call_gemini_api`.
Numbers are collapsed to `Int` (no claim depends on numeric content). -/
inductive PyVal where
  | null : PyVal
  | bool : Bool → PyVal
  | num : Int → PyVal
  | str : String → PyVal
  | arr : List PyVal → PyVal
  | obj : List (String × PyVal) → PyVal

namespace PyVal

/-- Python truthiness of a JSON-like value (`if not candidates: ...`). -/
def truthy : PyVal → Bool
  | .null => false
  | .bool b => b
  | .num n => n != 0
  | .str s => !s.isEmpty
  | .arr xs => !xs.isEmpty
  | .obj fs => !fs.isEmpty

/-- Python `d.get(key, default)`: succeeds on dicts, raises `AttributeError`
(modelled as `Except.error`) on every other value. -/
def pyGet : PyVal → String → PyVal → Except Unit PyVal
  | .obj fs, k, dflt => .ok ((fs.lookup k).getD dflt)
  | _, _, _ => .error ()

/-- Python `xs[0]`: head of a list, first character of a non-empty string,
an exception (`IndexError`/`TypeError`/`KeyError`) otherwise. -/
def index0 : PyVal → Except Unit PyVal
  | .arr (x :: _) => .ok x
  | .arr [] => .error ()
  | .str s =>
      match s.data with
      | c :: _ => .ok (.str (String.mk [c]))
      | [] => .error ()
  | _ => .error ()

end PyVal

/-- Model of Python `str.strip`: drop leading and trailing whitespace
characters (executable, so concrete payloads evaluate by `rfl`/`decide`). -/
def stripStr (s : String) : String :=
  String.mk (((s.data.dropWhile Char.isWhitespace).reverse.dropWhile
    Char.isWhitespace).reverse)

/-- The literal apology fallback returned by
`GeminiService._extract_response_text` on a malformed payload. -/
def apologyText : String :=
  "I apologize, but I couldn\x27t generate a proper response. Please try again."

/-- The `try` body of `GeminiService._extract_response_text`: navigates
`candidates[0].content.parts[0].text`, raising (`Except.error`) exactly where
the Python code would raise, and returning the raw candidate text. -/
def extractBody (response_data : PyVal) : Except Unit String := do
  let candidates ← response_data.pyGet "candidates" (.arr [])
  if !candidates.truthy then throw ()
  let c0 ← candidates.index0
  let content ← c0.pyGet "content" (.obj [])
  let parts ← content.pyGet "parts" (.arr [])
  if !parts.truthy then throw ()
  let p0 ← parts.index0
  let text ← p0.pyGet "text" (.str "")
  match text with
  | .str s => pure s
  | _ => throw ()

/-- Model of `GeminiService._extract_response_text`: the candidate text stripped of
surrounding whitespace, or the apology string when the `try` body raises. -/
def extract_response_text (response_data : PyVal) : String :=
  match extractBody response_data with
  | .ok s => stripStr s
  | .error _ => apologyText

/-- String constants of `app.models.conversation.MessageIntent` used by
`_detect_intent` (only the five reachable labels are needed). -/
def ORDER_LOOKUP : String := "order_lookup"

/-- Constant `MessageIntent.PRODUCT_INQUIRY`. -/
def PRODUCT_INQUIRY : String := "product_inquiry"

/-- Constant `MessageIntent.RETURN_REQUEST`. -/
def RETURN_REQUEST : String := "return_request"

/-- Constant `MessageIntent.SHIPPING_QUESTION`. -/
def SHIPPING_QUESTION : String := "shipping_question"

/-- Constant `MessageIntent.GENERAL_QUESTION`. -/
def GENERAL_QUESTION : String := "general_question"

/-- The `order_keywords` list of `_detect_intent`. -/
def order_keywords : List String :=
  ["order", "tracking", "track", "delivery", "shipped", "where is"]

/-- The `product_keywords` list of `_detect_intent`. -/
def product_keywords : List String :=
  ["product", "buy", "purchase", "price", "cost", "sell", "have"]

/-- The `return_keywords` list of `_detect_intent`. -/
def return_keywords : List String :=
  ["return", "refund", "exchange", "cancel"]

/-- The `shipping_keywords` list of `_detect_intent`. -/
def shipping_keywords : List String :=
  ["shipping", "ship", "deliver", "delivery time"]

/-- Python `any(kw in message_lower for kw in kws)`. -/
def kwMatch (message_lower : String) (kws : List String) : Bool :=
  kws.any (fun kw => strContains message_lower kw)

/-- Model of `GeminiService._detect_intent`: lower-case the customer message and test
the four keyword lists in order; first match wins; `ai_response` is accepted
but never read, exactly as in the source. -/
def detect_intent (customer_message : String) (ai_response : String) : String :=
  let message_lower := lowerStr customer_message
  let _ := ai_response
  if kwMatch message_lower order_keywords then ORDER_LOOKUP
  else if kwMatch message_lower product_keywords then PRODUCT_INQUIRY
  else if kwMatch message_lower return_keywords then RETURN_REQUEST
  else if kwMatch message_lower shipping_keywords then SHIPPING_QUESTION
  else GENERAL_QUESTION

/-- A catalog row as consumed by `_extract_product_references`: the code
reads `product.get("name", "")` and `product["id"]`. -/
structure Product where
  id : String
  name : String
deriving DecidableEq, Repr

/-- The `for product in products` loop of `_extract_product_references`:
collects, in catalog order, the id of every product whose lower-cased
non-empty name occurs in the lower-cased response. -/
def collectRefs (response_lower : String) : List Product → List String
  | [] => []
  | p :: rest =>
      let product_name := lowerStr p.name
      if !product_name.isEmpty && strContains response_lower product_name then
        p.id :: collectRefs response_lower rest
      else
        collectRefs response_lower rest

/-- Model of `GeminiService._extract_product_references`: the collected ids truncated
to the first 5 (`referenced_ids[:5]`). -/
def extract_product_references (ai_response : String) (products : List Product) :
    List String :=
  let response_lower := lowerStr ai_response
  (collectRefs response_lower products).take 5

/-- A prior exchange as consumed by `_build_prompt`: the code reads
`msg.get("customer_message", "")` and `msg.get("ai_response", "")`. -/
structure ConversationTurn where
  customer_message : String
  ai_response : String
deriving DecidableEq, Repr

/-- The two lines appended per history turn in `_build_prompt`. -/
def historyLines (history : List ConversationTurn) : List String :=
  history.foldl
    (fun acc msg =>
      acc ++ ["Customer: " ++ msg.customer_message,
              "Assistant: " ++ msg.ai_response])
    []

/-- Model of `GeminiService._build_prompt`: system prompt, then (when the history is
truthy) a header plus the last 5 turns, then the new customer message and the
trailing cue, joined with newlines.  A `None` history and an empty list are
both falsy in Python, so the history is modelled as a plain list. -/
def build_prompt (customer_message system_prompt : String)
    (conversation_history : List ConversationTurn) : String :=
  let prompt_parts := [system_prompt]
  let prompt_parts :=
    if conversation_history.isEmpty then prompt_parts
    else prompt_parts ++ ["\nCONVERSATION HISTORY:"]
           ++ historyLines (takeLast 5 conversation_history)
  let prompt_parts := prompt_parts
    ++ ["\nCustomer: " ++ customer_message, "Assistant:"]
  joinWith "\n" prompt_parts

/-- Outcome of the provider HTTP call made by `_call_gemini_api`: either a
response with a status code and JSON body, or `httpx.TimeoutException`. -/
inductive ProviderBehavior where
  | responds : Nat → PyVal → ProviderBehavior
  | timesOut : ProviderBehavior

/-- Model of `app.utils.error_handler.ExternalAPIException` as raised by the service
(message plus service tag; details carry no control flow). -/
structure ExternalAPIException where
  message : String
  service : String
deriving DecidableEq, Repr

/-- Model of `GeminiService._call_gemini_api`: `raise_for_status` turns a non-2xx
status into `ExternalAPIException`, a timeout raises the dedicated timeout
`ExternalAPIException`, and a 2xx response yields its JSON body. -/
def call_gemini_api (provider : ProviderBehavior) :
    Except ExternalAPIException PyVal :=
  match provider with
  | .responds status body =>
      if 200 ≤ status ∧ status < 300 then .ok body
      else .error ⟨"Gemini API returned an error", "gemini"⟩
  | .timesOut => .error ⟨"Gemini API request timed out", "gemini"⟩

/-- The dict returned by `GeminiService.generate_response` on success. -/
structure PipelineResult where
  ai_response : String
  intent_detected : String
  products_referenced : List String
  response_time_ms : Nat
deriving DecidableEq, Repr

/-- Model of `GeminiService.generate_response` after the context and system prompt are
built: call the provider, extract the response text, classify the intent,
extract product references and assemble the result dict.  Any exception
escaping the `try` block is re-raised as the generic
`"Failed to generate AI response"` `ExternalAPIException`; `elapsed_ms`
stands for the measured wall-clock duration. -/
def generate_response (customer_message : String) (products : List Product)
    (conversation_history : List ConversationTurn) (system_prompt : String)
    (provider : ProviderBehavior) (elapsed_ms : Nat) :
    Except ExternalAPIException PipelineResult :=
  let _ := build_prompt customer_message system_prompt conversation_history
  match call_gemini_api provider with
  | .error _ => .error ⟨"Failed to generate AI response", "gemini"⟩
  | .ok response_data =>
      let ai_response := extract_response_text response_data
      let intent := detect_intent customer_message ai_response
      let product_ids := extract_product_references ai_response products
      .ok ⟨ai_response, intent, product_ids, elapsed_ms⟩

/-- Index, counted in characters of the lower-cased strings, of the first
occurrence of `name` inside `resp` (used to state first-mention order). -/
def firstOccAux (n : List Char) : List Char → Nat
  | [] => 0
  | c :: t => if startsWithL n (c :: t) then 0 else firstOccAux n t + 1

/-- Position of the first mention of a product name in the response text,
under the same lower-casing that `_extract_product_references` applies. -/
def firstMentionIndex (resp name : String) : Nat :=
  firstOccAux (lowerStr name).data (lowerStr resp).data

/-- Boolean test matching the loop condition of
`_extract_product_references`: the product has a non-empty name occurring in
the lower-cased response. -/
def mentions (ai_response : String) (p : Product) : Bool :=
  !(lowerStr p.name).isEmpty && strContains (lowerStr ai_response) (lowerStr p.name)

/-- A provider payload of the expected
`candidates[0].content.parts[0].text` shape with candidate text `s`. -/
def wellFormedPayload (s : String) : PyVal :=
  .obj [("candidates", .arr [.obj [("content",
    .obj [("parts", .arr [.obj [("text", .str s)]])])]])]

/-- A success payload whose `parts[0]` object lacks the `"text"` key: the
expected nested candidate text is absent. -/
def noTextPayload : PyVal :=
  .obj [("candidates", .arr [.obj [("content",
    .obj [("parts", .arr [.obj []])])]])]

lemma startsWithL_refl_append (n t : List Char) :
    startsWithL n (n ++ t) = true := by
  induction n with
  | nil => rfl
  | cons a as ih => simp [startsWithL, ih]

lemma hasSubL_cons (n : List Char) (c : Char) (t : List Char)
    (h : hasSubL n t = true) : hasSubL n (c :: t) = true := by
  simp [hasSubL, h]

lemma hasSubL_of_startsWithL (n h : List Char)
    (hs : startsWithL n h = true) : hasSubL n h = true := by
  cases h with
  | nil =>
      cases n with
      | nil => rfl
      | cons a as => simp [startsWithL] at hs
  | cons c t => simp [hasSubL, hs]

lemma hasSubL_append_left (n pre t : List Char)
    (h : hasSubL n t = true) : hasSubL n (pre ++ t) = true := by
  induction pre with
  | nil => simpa using h
  | cons c cs ih => exact hasSubL_cons _ _ _ ih

lemma hasSubL_middle (n pre post : List Char) :
    hasSubL n (pre ++ (n ++ post)) = true :=
  hasSubL_append_left n pre (n ++ post)
    (hasSubL_of_startsWithL n (n ++ post) (startsWithL_refl_append n post))

lemma startsWithL_trans (a b c : List Char)
    (hab : startsWithL a b = true) (hbc : startsWithL b c = true) :
    startsWithL a c = true := by
  induction a generalizing b c with
  | nil => rfl
  | cons x xs ih =>
      cases b with
      | nil => simp [startsWithL] at hab
      | cons y ys =>
          cases c with
          | nil => simp [startsWithL] at hbc
          | cons z zs =>
              simp only [startsWithL, Bool.and_eq_true, beq_iff_eq] at hab hbc ⊢
              exact ⟨hab.1.trans hbc.1, ih ys zs hab.2 hbc.2⟩

lemma hasSubL_mono (a b h : List Char)
    (hab : startsWithL a b = true) (hbh : hasSubL b h = true) :
    hasSubL a h = true := by
  induction h with
  | nil =>
      cases b with
      | nil =>
          cases a with
          | nil => rfl
          | cons x xs => simp [startsWithL] at hab
      | cons y ys => simp [hasSubL, List.isEmpty] at hbh
  | cons c t ih =>
      simp only [hasSubL, Bool.or_eq_true] at hbh ⊢
      cases hbh with
      | inl hs => exact Or.inl (startsWithL_trans a b (c :: t) hab hs)
      | inr hs => exact Or.inr (ih hs)

lemma strContains_of_startsWithL (hay : String) (n1 n2 : String)
    (h12 : startsWithL n1.data n2.data = true)
    (h : strContains hay n2 = true) : strContains hay n1 = true :=
  hasSubL_mono n1.data n2.data hay.data h12 h

lemma joinWith_append_two (sep a b : String) :
    ∀ l : List String, l ≠ [] →
      joinWith sep (l ++ [a, b]) = joinWith sep l ++ sep ++ a ++ sep ++ b
  | [], h => absurd rfl h
  | [x], _ => by simp [joinWith, String.append_assoc]
  | x :: y :: rest, _ => by
      have ih := joinWith_append_two sep a b (y :: rest) (by simp)
      simp only [List.cons_append] at ih ⊢
      simp only [joinWith, ih, String.append_assoc]

lemma build_prompt_split (cm sp : String) (h : List ConversationTurn) :
    ∃ B : String,
      build_prompt cm sp h
        = B ++ "\n" ++ ("\nCustomer: " ++ cm) ++ "\n" ++ "Assistant:" := by
  unfold build_prompt
  split
  · exact ⟨joinWith "\n" [sp], by
      simpa [String.append_assoc] using
        joinWith_append_two "\n" ("\nCustomer: " ++ cm) "Assistant:" [sp] (by simp)⟩
  · exact ⟨joinWith "\n"
      ([sp] ++ ["\nCONVERSATION HISTORY:"] ++ historyLines (takeLast 5 h)), by
      simpa [String.append_assoc] using
        joinWith_append_two "\n" ("\nCustomer: " ++ cm) "Assistant:"
          ([sp] ++ ["\nCONVERSATION HISTORY:"] ++ historyLines (takeLast 5 h))
          (by simp)⟩

lemma collectRefs_eq_filterMap (resp : String) (ps : List Product) :
    collectRefs (lowerStr resp) ps = (ps.filter (mentions resp)).map Product.id := by
  induction ps with
  | nil => rfl
  | cons p rest ih =>
      by_cases hm : mentions resp p = true
      · have hm' := hm
        simp only [mentions, Bool.and_eq_true] at hm'
        simp [collectRefs, List.filter_cons, hm, ih, hm'.1, hm'.2]
      · have hm' : (!(lowerStr p.name).isEmpty
            && strContains (lowerStr resp) (lowerStr p.name)) = false := by
          simpa [mentions] using hm
        simp [collectRefs, List.filter_cons, hm, ih, hm']

lemma collectRefs_subset (resp : String) (ps : List Product) (x : String)
    (hx : x ∈ collectRefs (lowerStr resp) ps) : ∃ p ∈ ps, p.id = x := by
  rw [collectRefs_eq_filterMap] at hx
  obtain ⟨p, hp, rfl⟩ := List.mem_map.mp hx
  exact ⟨p, List.mem_of_mem_filter hp, rfl⟩

lemma lowerStr_isEmpty (s : String) : (lowerStr s).isEmpty = s.isEmpty := by
  cases s with
  | mk d =>
      cases d with
      | nil => rfl
      | cons c cs =>
          have h1 : (String.mk (c :: cs)).isEmpty = false := by
            rw [Bool.eq_false_iff]
            intro hh
            have hd := congrArg String.data ((String.isEmpty_iff _).mp hh)
            simp at hd
          have h2 : (lowerStr (String.mk (c :: cs))).isEmpty = false := by
            rw [Bool.eq_false_iff]
            intro hh
            have hd := congrArg String.data ((String.isEmpty_iff _).mp hh)
            simp [lowerStr] at hd
          rw [h1, h2]

/-- C3: any customer message whose lower-cased text contains at least one
order-lookup keyword is classified `order_lookup`, whatever other product,
return or shipping keywords co-occur (the order-lookup test runs first). -/
theorem detect_intent_order_keyword_wins (msg ai : String)
    (h : kwMatch (lowerStr msg) order_keywords = true) :
    detect_intent msg ai = ORDER_LOOKUP := by
  simp [detect_intent, h]

/-- Witness for C3: a concrete message containing both an order keyword and
the product keyword "have" is classified `order_lookup`. -/
theorem detect_intent_order_keyword_wins_witness :
    kwMatch (lowerStr "Where is my order? Do you have it?") order_keywords = true ∧
    detect_intent "Where is my order? Do you have it?" "Yes." = ORDER_LOOKUP :=
  ⟨by decide,
   detect_intent_order_keyword_wins "Where is my order? Do you have it?" "Yes."
     (by decide)⟩

/-- C7: a customer message whose lower-cased text matches none of the four
keyword lists is classified `general_question`; classification is a total
function returning exactly one label. -/
theorem detect_intent_default_general_question (msg ai : String)
    (h1 : kwMatch (lowerStr msg) order_keywords = false)
    (h2 : kwMatch (lowerStr msg) product_keywords = false)
    (h3 : kwMatch (lowerStr msg) return_keywords = false)
    (h4 : kwMatch (lowerStr msg) shipping_keywords = false) :
    detect_intent msg ai = GENERAL_QUESTION := by
  simp [detect_intent, h1, h2, h3, h4]

/-- Witness for C7: a concrete keyword-free message is classified
`general_question`. -/
theorem detect_intent_default_general_question_witness :
    kwMatch (lowerStr "Hello!") order_keywords = false ∧
    kwMatch (lowerStr "Hello!") product_keywords = false ∧
    kwMatch (lowerStr "Hello!") return_keywords = false ∧
    kwMatch (lowerStr "Hello!") shipping_keywords = false ∧
    detect_intent "Hello!" "Hi!" = GENERAL_QUESTION :=
  ⟨by decide, by decide, by decide, by decide,
   detect_intent_default_general_question "Hello!" "Hi!"
     (by decide) (by decide) (by decide) (by decide)⟩

/-- C9: a message containing the phrase "delivery time" always contains the
order-lookup keyword "delivery", so it is classified `order_lookup` and the
shipping-question keyword "delivery time" can never decide the label. -/
theorem detect_intent_delivery_time_is_order_lookup (msg ai : String)
    (h : strContains (lowerStr msg) "delivery time" = true) :
    detect_intent msg ai = ORDER_LOOKUP ∧
    detect_intent msg ai ≠ SHIPPING_QUESTION := by
  have hd : strContains (lowerStr msg) "delivery" = true :=
    strContains_of_startsWithL (lowerStr msg) "delivery" "delivery time"
      (by decide) h
  have hk : kwMatch (lowerStr msg) order_keywords = true := by
    refine List.any_eq_true.mpr ⟨"delivery", ?_, hd⟩
    simp [order_keywords]
  refine ⟨by simp [detect_intent, hk], ?_⟩
  simp [detect_intent, hk, ORDER_LOOKUP, SHIPPING_QUESTION]

/-- Witness for C9: the concrete question "What is the delivery time?" is
classified `order_lookup`, not `shipping_question`. -/
theorem detect_intent_delivery_time_witness :
    strContains (lowerStr "What is the delivery time?") "delivery time" = true ∧
    detect_intent "What is the delivery time?" "" = ORDER_LOOKUP ∧
    detect_intent "What is the delivery time?" "" ≠ SHIPPING_QUESTION :=
  ⟨by decide,
   (detect_intent_delivery_time_is_order_lookup "What is the delivery time?" ""
     (by decide)).1,
   (detect_intent_delivery_time_is_order_lookup "What is the delivery time?" ""
     (by decide)).2⟩

/-- C8: for every system prompt, history and customer message, the composed
transcript contains the customer message verbatim as a substring and ends
with the literal cue "Assistant:". -/
theorem build_prompt_contains_message_and_ends_with_cue
    (cm sp : String) (h : List ConversationTurn) :
    strContains (build_prompt cm sp h) cm = true ∧
    ∃ pre : String, build_prompt cm sp h = pre ++ "Assistant:" := by
  obtain ⟨B, hB⟩ := build_prompt_split cm sp h
  constructor
  · rw [hB]
    have : (B ++ "\n" ++ ("\nCustomer: " ++ cm) ++ "\n" ++ "Assistant:").data
        = (B ++ "\n" ++ "\nCustomer: ").data ++ (cm.data ++ ("\n" ++ "Assistant:").data) := by
      simp [String.data_append, List.append_assoc]
    unfold strContains
    rw [this]
    exact hasSubL_middle cm.data _ _
  · exact ⟨B ++ "\n" ++ ("\nCustomer: " ++ cm) ++ "\n", by rw [hB]⟩

/-- C4: the extracted reference list never holds more than 5 ids and every
id in it belongs to some product of the supplied catalog. -/
theorem extract_product_references_bounded_subset
    (resp : String) (ps : List Product) :
    (extract_product_references resp ps).length ≤ 5 ∧
    (extract_product_references resp ps).all
      (fun i => (ps.map Product.id).contains i) = true := by
  constructor
  · exact List.length_take_le 5 _
  · refine List.all_eq_true.mpr (fun x hx => ?_)
    have hx' : x ∈ collectRefs (lowerStr resp) ps :=
      List.take_subset 5 _ hx
    obtain ⟨p, hp, hpx⟩ := collectRefs_subset resp ps x hx'
    exact List.elem_iff.mpr (List.mem_map.mpr ⟨p, hp, hpx⟩)

/-- C10: a catalog item with an empty name is never matched, so dropping
empty-named items from the catalog never changes the extraction result. -/
theorem extract_product_references_skips_empty_names
    (resp : String) (ps : List Product) :
    extract_product_references resp ps
      = extract_product_references resp (ps.filter (fun p => !p.name.isEmpty)) := by
  simp only [extract_product_references]
  rw [collectRefs_eq_filterMap, collectRefs_eq_filterMap, List.filter_filter]
  congr 2
  apply List.filter_congr
  intro p _
  cases hn : p.name.isEmpty with
  | true =>
      have : (lowerStr p.name).isEmpty = true := by rw [lowerStr_isEmpty, hn]
      simp [mentions, this, hn]
  | false =>
      have : (lowerStr p.name).isEmpty = false := by rw [lowerStr_isEmpty, hn]
      simp [mentions, this, hn]

/-- C1 counterexample: with catalog ["alpha" as p1, "beta" as p2] and
response "beta alpha", the extractor returns ["p1", "p2"] although "beta"
(product p2) is mentioned strictly earlier than "alpha" (product p1): the
result is in catalog order, not first-mention order. -/
theorem extract_product_references_mention_order_counterexample :
    extract_product_references "beta alpha"
      [⟨"p1", "alpha"⟩, ⟨"p2", "beta"⟩] = ["p1", "p2"] ∧
    firstMentionIndex "beta alpha" "beta"
      < firstMentionIndex "beta alpha" "alpha" := by
  constructor
  · decide
  · decide

/-- C1 amended: the extracted ids are those of the first at-most-5 catalog
products whose name matches, in catalog (snapshot) order — a sublist of the
catalog id sequence — and when more than 5 products match, exactly the
first 5 in catalog order are kept. -/
theorem extract_product_references_catalog_order
    (resp : String) (ps : List Product) :
    extract_product_references resp ps
      = ((ps.filter (mentions resp)).map Product.id).take 5 ∧
    List.Sublist (extract_product_references resp ps) (ps.map Product.id) := by
  have hmain : extract_product_references resp ps
      = ((ps.filter (mentions resp)).map Product.id).take 5 := by
    simp only [extract_product_references]
    rw [collectRefs_eq_filterMap]
  refine ⟨hmain, ?_⟩
  rw [hmain]
  exact (List.take_sublist 5 _).trans ((List.filter_sublist ps).map Product.id)

/-- C2 counterexample: a 200-status payload of the expected nested shape
whose candidate text is the empty string is accepted as a success, and the
extracted response text is empty — not a non-empty string. -/
theorem extract_response_text_empty_counterexample :
    call_gemini_api (ProviderBehavior.responds 200 (wellFormedPayload ""))
      = Except.ok (wellFormedPayload "") ∧
    extract_response_text (wellFormedPayload "") = "" :=
  ⟨rfl, rfl⟩

/-- C2 amended: the extracted response text is the whitespace-trimmed
candidate text on a payload of the expected shape and the (non-empty)
apology string otherwise; it can be empty exactly when a well-formed
candidate text trims to the empty string. -/
theorem extract_response_text_characterization :
    apologyText ≠ "" ∧
    (∀ s : String, extract_response_text (wellFormedPayload s) = stripStr s) ∧
    (∀ d : PyVal, extract_response_text d = apologyText ∨
      ∃ s, extractBody d = Except.ok s ∧ extract_response_text d = stripStr s) := by
  refine ⟨by decide, fun s => rfl, fun d => ?_⟩
  cases h : extractBody d with
  | error e =>
      left
      unfold extract_response_text
      rw [h]
  | ok s =>
      right
      exact ⟨s, rfl, by unfold extract_response_text; rw [h]⟩

/-- C5 counterexample: a success payload with candidates, content and parts
present but whose `parts[0]` lacks the `"text"` key is extracted as the
empty string, not as the literal apology string. -/
theorem extract_response_text_missing_text_counterexample :
    extract_response_text noTextPayload ≠ apologyText ∧
    extract_response_text noTextPayload = "" :=
  ⟨by decide, rfl⟩

/-- C5 amended: extraction is total and never raises; every payload on which
the nested navigation raises (in particular any dict without a `"candidates"`
key) is recovered as the literal apology string, but a payload whose
`parts[0]` merely lacks the `"text"` key yields the empty string instead. -/
theorem extract_response_text_malformed_recovery :
    (∀ fs : List (String × PyVal), List.lookup "candidates" fs = none →
        extract_response_text (PyVal.obj fs) = apologyText) ∧
    (∀ d : PyVal, extractBody d = Except.error () →
        extract_response_text d = apologyText) ∧
    extract_response_text noTextPayload = "" := by
  refine ⟨fun fs h => ?_, fun d h => by unfold extract_response_text; rw [h], rfl⟩
  have h1 : PyVal.pyGet (PyVal.obj fs) "candidates" (PyVal.arr [])
      = Except.ok (PyVal.arr []) := by
    simp [PyVal.pyGet, h]
  have hb : extractBody (PyVal.obj fs) = Except.error () := by
    unfold extractBody
    rw [h1]
    rfl
  unfold extract_response_text
  rw [hb]

/-- Witness for C5 amended: the empty dict payload (no `"candidates"` key)
is recovered as the apology string, and the concrete missing-text payload is
extracted as the empty string. -/
theorem extract_response_text_malformed_recovery_witness :
    extract_response_text (PyVal.obj []) = apologyText ∧
    extract_response_text (PyVal.obj [("error", PyVal.str "boom")]) = apologyText ∧
    extract_response_text noTextPayload = "" :=
  ⟨extract_response_text_malformed_recovery.1 [] rfl,
   extract_response_text_malformed_recovery.2.1
     (PyVal.obj [("error", PyVal.str "boom")]) rfl,
   extract_response_text_malformed_recovery.2.2⟩

/-- C6: when the provider call times out, `generate_response` propagates a
typed `ExternalAPIException` (the timeout exception from `_call_gemini_api`,
re-wrapped by the outer handler as "Failed to generate AI response"), so no
result dict with `ai_response`, `intent_detected` or `products_referenced`
is ever produced for that call. -/
theorem generate_response_timeout_fatal (cm : String) (ps : List Product)
    (hist : List ConversationTurn) (sp : String) (ms : Nat) :
    generate_response cm ps hist sp ProviderBehavior.timesOut ms
      = Except.error ⟨"Failed to generate AI response", "gemini"⟩ :=
  rfl
